import Mathlib

/-!
Verification development for the BargainB LangGraph repository.

This file gives a shallow embedding, in Lean 4, of the control-flow core of
the repository: the Self-RAG graph (`my_agent/agent.py`, `my_agent/utils/nodes.py`,
`my_agent/utils/state.py`), the bee-hive supervisor (`my_agent/memory_agent/agent.py`),
the memory-agent nodes (`my_agent/memory_agent/nodes.py`) and the dialog-stack
reducer (`my_agent/memory_agent/state.py`).  Calls to external services (the
LLM graders and generators, the product database, Trustcall extraction, JSON
parsing) are modelled as explicit oracle parameters; everything else is
translated directly from the Python source.
-/

namespace BargainB

/-! ## Self-RAG data model (`my_agent/utils/state.py`) -/

/-- One retrieved document (`langchain_core.documents.Document`): the controller
only reads `page_content` (for grading) and metadata such as the title. -/
structure Doc where
  page_content : String
  title : String
deriving DecidableEq

/-- The `Literal["yes", "no"]` binary score used by `GradeDocuments` and
`GradeGeneration` in `my_agent/utils/nodes.py`. -/
inductive BinaryScore
  | yes
  | no
deriving DecidableEq

/-- The string stored into the state's grade fields (`score.binary_score`). -/
def BinaryScore.toStr : BinaryScore → String
  | .yes => "yes"
  | .no => "no"

/-- `AgentState` from `my_agent/utils/state.py`.  Fields are exactly the ones the
source declares: note there is no iteration counter of any kind. -/
structure AgentState where
  messages : List String
  documents : List Doc
  question : String
  generation : String
  generation_v_question_grade : String
  generation_v_documents_grade : String
deriving DecidableEq

/-- The external services the Self-RAG nodes call: retriever, RAG generation
chain, and the three structured-output graders, plus the query-transform chain. -/
structure RagOracles where
  retrieverFn : String → List Doc
  ragChain : String → List Doc → String
  docGrader : String → String → BinaryScore
  groundGrader : List Doc → String → BinaryScore
  usefulGrader : String → String → BinaryScore
  transformChain : String → String

/-! ## Self-RAG nodes (`my_agent/utils/nodes.py`) -/

/-- `sub` is a leading segment of `hay` (character lists). -/
def charsLeading : List Char → List Char → Bool
  | [], _ => true
  | _ :: _, [] => false
  | a :: as, b :: bs => a == b && charsLeading as bs

/-- `sub` occurs somewhere inside `hay` (character lists). -/
def charsOccurs (sub : List Char) : List Char → Bool
  | [] => sub.isEmpty
  | c :: rest => charsLeading sub (c :: rest) || charsOccurs sub rest

/-- Python's `sub in hay` substring test. -/
def containsSub (hay sub : String) : Bool :=
  charsOccurs sub.toList hay.toList

/-- The fixed `product_types` list in `retrieve_node`. -/
def product_types : List String :=
  ["milk", "bread", "cheese", "meat", "fish", "fruit", "vegetable", "snack",
   "drink", "breakfast", "lunch", "dinner"]

/-- The fixed `modifiers` list in `retrieve_node`. -/
def modifierWords : List String :=
  ["organic", "low-fat", "whole", "fresh", "healthy", "cheap", "expensive",
   "bio", "natural"]

/-- Keyword extraction inside `retrieve_node`: product types first, then
modifiers, each kept when it occurs in the lower-cased query. -/
def extractKeywords (question : String) : List String :=
  let query_lower := question.toLower
  product_types.filter (fun p => containsSub query_lower p) ++
    modifierWords.filter (fun m => containsSub query_lower m)

/-- `' '.join(keywords[:3])` when keywords were found, else the question. -/
def simplifyQuestion (question : String) : String :=
  let keywords := extractKeywords question
  if keywords ≠ [] then " ".intercalate (keywords.take 3) else question

/-- Count the maximal runs of non-space characters (the flag records whether a
word is currently open). -/
def countWords : List Char → Bool → Nat
  | [], _ => 0
  | c :: rest, inWord =>
    if c = ' ' then countWords rest false
    else (if inWord then 0 else 1) + countWords rest true

/-- `len(question.split())`: the number of whitespace-separated words. -/
def wordCount (q : String) : Nat :=
  countWords q.toList false

/-- `retrieve_node`: pick the question (falling back to the last message),
optionally simplify it to keywords on the first retrieval, then replace
`documents` with the retriever's results. -/
def retrieve_node (o : RagOracles) (s : AgentState) : AgentState :=
  let question := if s.question = "" then (s.messages.getLast?).getD "" else s.question
  let question :=
    if 3 < wordCount question ∧ s.documents = [] then simplifyQuestion question
    else question
  { s with documents := o.retrieverFn question, question := question }

/-- `generate_node`: produce the answer from question and documents; the
returned dict keeps `documents`, `question` and `messages` unchanged. -/
def generate_node (o : RagOracles) (s : AgentState) : AgentState :=
  { s with generation := o.ragChain s.question s.documents }

/-- The grading loop of `grade_documents_node`: one grader call per document,
in order, keeping the document when the grade is `yes`.  Returns both the
issued judgments and the filtered document list. -/
def gradeDocumentsLoop (o : RagOracles) (question : String) :
    List Doc → List (Doc × BinaryScore) × List Doc
  | [] => ([], [])
  | d :: ds =>
    let grade := o.docGrader d.page_content question
    let rest := gradeDocumentsLoop o question ds
    ((d, grade) :: rest.1, if grade = .yes then d :: rest.2 else rest.2)

/-- `grade_documents_node`: replace `documents` with the filtered list. -/
def grade_documents_node (o : RagOracles) (s : AgentState) : AgentState :=
  { s with documents := (gradeDocumentsLoop o s.question s.documents).2 }

/-- `transform_query_node`: rewrite the question; everything else unchanged. -/
def transform_query_node (o : RagOracles) (s : AgentState) : AgentState :=
  { s with question := o.transformChain s.question }

/-- `generate_generation_v_documents_grade_node`: store the groundedness grade. -/
def generate_generation_v_documents_grade_node (o : RagOracles) (s : AgentState) :
    AgentState :=
  { s with generation_v_documents_grade := (o.groundGrader s.documents s.generation).toStr }

/-- `generate_generation_v_question_grade_node`: store the usefulness grade. -/
def generate_generation_v_question_grade_node (o : RagOracles) (s : AgentState) :
    AgentState :=
  { s with generation_v_question_grade := (o.usefulGrader s.question s.generation).toStr }

/-- Routing function `decide_to_generate`. -/
def decide_to_generate (s : AgentState) : String :=
  if s.documents = [] then "transform_query" else "generate"

/-- Routing function `grade_generation_v_documents`. -/
def grade_generation_v_documents (s : AgentState) : String :=
  if s.generation_v_documents_grade = "yes" then "supported" else "not_supported"

/-- Routing function `grade_generation_v_question`. -/
def grade_generation_v_question (s : AgentState) : String :=
  if s.generation_v_question_grade = "yes" then "useful" else "not_useful"

/-! ## The Self-RAG graph (`my_agent/agent.py`) -/

/-- The nodes of the compiled Self-RAG graph, plus `start` and the END node. -/
inductive RagNode
  | start
  | retrieve
  | grade_documents
  | generate
  | transform_query
  | gradeGenVDocuments
  | gradeGenVQuestion
  | ragEnd
deriving DecidableEq

/-- One transition of the Self-RAG graph: run the node the control sits on,
then follow the (conditional) edge declared in `graph_builder`. -/
def ragStep (o : RagOracles) : RagNode × AgentState → RagNode × AgentState
  | (.start, s) => (.retrieve, s)
  | (.retrieve, s) => (.grade_documents, retrieve_node o s)
  | (.grade_documents, s) =>
    let s2 := grade_documents_node o s
    (if decide_to_generate s2 = "transform_query" then .transform_query else .generate, s2)
  | (.transform_query, s) => (.retrieve, transform_query_node o s)
  | (.generate, s) => (.gradeGenVDocuments, generate_node o s)
  | (.gradeGenVDocuments, s) =>
    let s2 := generate_generation_v_documents_grade_node o s
    (if grade_generation_v_documents s2 = "supported" then .gradeGenVQuestion
     else .generate, s2)
  | (.gradeGenVQuestion, s) =>
    let s2 := generate_generation_v_question_grade_node o s
    (if grade_generation_v_question s2 = "useful" then .ragEnd else .transform_query, s2)
  | (.ragEnd, s) => (.ragEnd, s)

/-- The run of the graph: `n` transitions from the START node. -/
def ragRun (o : RagOracles) (s0 : AgentState) : Nat → RagNode × AgentState
  | 0 => (.start, s0)
  | n + 1 => ragStep o (ragRun o s0 n)

/-! ## Memory-agent data model (`my_agent/memory_agent/state.py`, messages) -/

/-- One tool call carried by a message; `args` is modelled by the three optional
argument fields the supervisor and workers actually read. -/
structure BToolCall where
  name : String
  id : String
  task_description : Option String := none
  memory_type : Option String := none
  context : Option String := none
deriving DecidableEq

/-- One conversation message: its `type` ("human"/"ai"/"tool"), content, the
tool-response bookkeeping fields, and its tool calls. -/
structure BMsg where
  mtype : String
  content : String
  name : Option String := none
  tool_call_id : Option String := none
  tool_calls : List BToolCall := []
deriving DecidableEq

/-- The fields of `BargainBMemoryState` read or written by the functions under
verification (the remaining fields of the TypedDict are never touched by them). -/
structure BState where
  messages : List BMsg
  user_id : Option String := none
  thread_id : Option String := none
  conversation_id : Option String := none
  summary : Option String := none
  iteration_count : Nat := 0
  delegation_completed : Bool := false
  scout_results : String := ""
  memory_results : String := ""
  scribe_results : String := ""
  current_bee : String := ""
deriving DecidableEq

/-! ## Bee-hive supervisor (`my_agent/memory_agent/agent.py`) -/

/-- The inner loop of `route_beeb_decisions`: the first recognized
`assign_to_*` tool call decides the worker; unrecognized names are skipped. -/
def firstAssignTarget (tcs : List BToolCall) : Option String :=
  tcs.findSome? fun tc =>
    if tc.name = "assign_to_scout_bee" then some "scout_bee"
    else if tc.name = "assign_to_memory_bee" then some "memory_bee"
    else if tc.name = "assign_to_scribe_bee" then some "scribe_bee"
    else none

/-- `route_beeb_decisions`: empty history, the 10-iteration ceiling and a
completed delegation all force `"end"`; with pending worker results only a new
`ai` message with tool calls re-delegates; otherwise the most recent message
with tool calls decides. -/
def route_beeb_decisions (s : BState) : String :=
  if s.messages = [] then "end"
  else if 10 ≤ s.iteration_count then "end"
  else if s.delegation_completed then "end"
  else if s.scout_results ≠ "" ∨ s.memory_results ≠ "" ∨ s.scribe_results ≠ "" then
    match s.messages.getLast? with
    | some last =>
      if last.tool_calls ≠ [] ∧ last.mtype = "ai" then
        (firstAssignTarget last.tool_calls).getD "end"
      else "end"
    | none => "end"
  else
    match s.messages.reverse.find? (fun m => !m.tool_calls.isEmpty) with
    | some m => (firstAssignTarget m.tool_calls).getD "end"
    | none => "end"

/-- The tool-response message `beeb_supervisor_node` appends for a tool call. -/
def toolResponseFor (result : BMsg) (tc : BToolCall) : BMsg :=
  { mtype := "tool",
    content := if result.content ≠ "" then result.content else "Task delegated successfully",
    name := some tc.name,
    tool_call_id := some tc.id,
    tool_calls := [] }

/-- `beeb_supervisor_node`, with the LLM's reply passed in as `result`: append
the reply (plus tool responses when it delegates), increment the iteration
count, and on a direct user reply clear the worker results and mark the
delegation completed. -/
def beeb_supervisor_node (result : BMsg) (s : BState) : BState :=
  let updated_messages :=
    s.messages ++ [result] ++
      (if result.tool_calls ≠ [] then result.tool_calls.map (toolResponseFor result) else [])
  let base := { s with
    messages := updated_messages,
    current_bee := "beeb",
    iteration_count := s.iteration_count + 1 }
  if result.tool_calls = [] then
    { base with
      scout_results := ""
      memory_results := ""
      scribe_results := ""
      delegation_completed := true }
  else base

/-! ## Scout Bee (`my_agent/memory_agent/agent.py`, `scout_bee_node`) -/

/-- One product row as returned by `semantic_search`. -/
structure Product where
  title : String
  brand : String
  quantity : String
  price : String
  store_prices : String
deriving DecidableEq

/-- One entry of the `store_prices` JSON array. -/
structure StorePrice where
  store : String
  price : String
deriving DecidableEq

/-- External calls made by `scout_bee_node`: the database search (which may
raise) and `json.loads` on the `store_prices` field (`none` models a parse
exception). -/
structure ScoutOracles where
  semantic_search : String → Except String (List Product)
  parseStorePrices : String → Option (List StorePrice)

/-- The first `assign_to_scout_bee` call of one message updates the task
description (keeping the current one when `task_description` is absent). -/
def scoutCallTask (tcs : List BToolCall) (current : String) : String :=
  match tcs.find? (fun tc => tc.name == "assign_to_scout_bee") with
  | some tc => tc.task_description.getD current
  | none => current

/-- The reversed-messages scan of `scout_bee_node`: stop as soon as the task
differs from the default literal. -/
def scoutTaskLoop : List BMsg → String → String
  | [], t => t
  | m :: rest, t =>
    let t2 := if m.tool_calls ≠ [] then scoutCallTask m.tool_calls t else t
    if t2 ≠ "Search for products" then t2 else scoutTaskLoop rest t2

/-- The three `str.replace` calls stripping verbs from the task description. -/
def searchQueryOf (task : String) : String :=
  ((task.replace "Search for " "").replace "Find " "").replace "Compare prices for " ""

/-- Store extraction for one product: first entry of the parsed `store_prices`
array, `"Unknown Store"` on parse failure or an empty array. -/
def storeOf (o : ScoutOracles) (p : Product) : String :=
  match o.parseStorePrices p.store_prices with
  | some (sp :: _) => sp.store
  | _ => "Unknown Store"

/-- The optional `Stores:` comparison line for one product. -/
def storesLine (o : ScoutOracles) (p : Product) : String :=
  match o.parseStorePrices p.store_prices with
  | some sps =>
    if 1 < sps.length then
      "   Stores: " ++
        ", ".intercalate ((sps.take 3).map (fun sp => sp.store ++ " " ++ sp.price)) ++ "\n"
    else ""
  | none => ""

/-- The per-product block of `scout_results` (1-based index `i`). -/
def formatProduct (o : ScoutOracles) (i : Nat) (p : Product) : String :=
  toString i ++ ". **" ++ p.title ++ "** by " ++ p.brand ++ "\n" ++
    "   Product: " ++ p.title ++ "\n" ++
    "   Brand: " ++ p.brand ++ "\n" ++
    "   Size: " ++ p.quantity ++ "\n" ++
    "   Best price: " ++ p.price ++ " at " ++ storeOf o p ++ "\n" ++
    storesLine o p ++ "\n"

/-- `enumerate(products, 1)` over the formatting loop. -/
def formatProducts (o : ScoutOracles) : Nat → List Product → String
  | _, [] => ""
  | i, p :: ps => formatProduct o i p ++ formatProducts o (i + 1) ps

/-- `scout_bee_node`: extract the task, search the database inside try/except,
format the results, and write them into `scout_results`. -/
def scout_bee_node (o : ScoutOracles) (s : BState) : BState :=
  let task_description := scoutTaskLoop s.messages.reverse "Search for products"
  let scout_results :=
    match o.semantic_search (searchQueryOf task_description) with
    | .ok products =>
      if products ≠ [] then
        "🔍 Found " ++ toString products.length ++ " products for '" ++
          task_description ++ "':\n\n" ++ formatProducts o 1 products
      else
        "🔍 No products found for '" ++ task_description ++
          "'. Try different keywords or check spelling."
    | .error e => "🔍 Search encountered an error: " ++ e
  { s with scout_results := scout_results, current_bee := "scout_bee" }

/-! ## Memory Bee (`my_agent/memory_agent/agent.py`, `memory_bee_node`) -/

/-- The three memory handlers (`_handle_profile_memory`,
`_handle_shopping_memory`, `_handle_instructions_memory`), each of which may
raise (`Except.error`). -/
structure MemoryHandlers where
  profile : String → String → Except String String
  shopping : String → String → Except String String
  instructions : String → String → Except String String

/-- Task extraction in `memory_bee_node`: defaults, then every
`assign_to_memory_bee` call of the last message overwrites them in order. -/
def memoryTaskOf (msgs : List BMsg) : String × String :=
  match msgs.getLast? with
  | none => ("profile", "Update user memory")
  | some last =>
    if last.tool_calls ≠ [] then
      last.tool_calls.foldl
        (fun acc tc =>
          if tc.name = "assign_to_memory_bee" then
            (tc.memory_type.getD acc.1, tc.context.getD acc.2)
          else acc)
        ("profile", "Update user memory")
    else ("profile", "Update user memory")

/-- The `memory_type` dispatch inside the try-block of `memory_bee_node`. -/
def dispatchMemoryHandler (h : MemoryHandlers) (user_id memory_type context : String) :
    Except String String :=
  if memory_type = "profile" then h.profile user_id context
  else if memory_type = "shopping" then h.shopping user_id context
  else if memory_type = "instructions" then h.instructions user_id context
  else .ok ("❌ Unknown memory type: " ++ memory_type)

/-- `memory_bee_node`: missing user id and handler exceptions both degrade to a
textual report in `memory_results`; the node never re-raises. -/
def memory_bee_node (h : MemoryHandlers) (cfg_user_id : Option String) (s : BState) :
    BState :=
  match cfg_user_id with
  | none =>
    { s with memory_results := "❌ No user ID provided for memory storage",
             current_bee := "memory_bee" }
  | some user_id =>
    let task := memoryTaskOf s.messages
    match dispatchMemoryHandler h user_id task.1 task.2 with
    | .ok result => { s with memory_results := result, current_bee := "memory_bee" }
    | .error e =>
      { s with memory_results := "❌ Memory update failed: " ++ e,
               current_bee := "memory_bee" }

/-! ## Scribe Bee (`my_agent/memory_agent/agent.py`, `scribe_bee_node`) -/

/-- `scribe_bee_node`, with the sub-agent's message list passed in: the last
message's content (or the failure text) is written into both `scribe_results`
and `summary`. -/
def scribe_bee_node (scribe_messages : List BMsg) (s : BState) : BState :=
  let summary_result :=
    match scribe_messages.getLast? with
    | some final => final.content
    | none => "Summarization failed"
  { s with scribe_results := summary_result,
           summary := some summary_result,
           current_bee := "scribe_bee" }

/-! ## Summarization (`my_agent/memory_agent/nodes.py`) -/

/-- One audit row written by `log_message_truncation`. -/
structure TruncLog where
  messages_before : Nat
  messages_after : Nat
  messages_removed : Nat
deriving DecidableEq

/-- One row written by `save_conversation_summary`. -/
structure SavedSummary where
  thread_id : String
  summary_text : String
  message_count : Nat
deriving DecidableEq

/-- The state produced by `summarize_conversation` together with its two
persistence side effects. -/
structure SummarizeResult where
  state : BState
  saved : Option SavedSummary
  truncation_log : Option TruncLog
deriving DecidableEq

/-- A plain human message, as built by `HumanMessage(content=...)`. -/
def humanMsg (content : String) : BMsg :=
  { mtype := "human", content := content }

/-- The summarization prompt: extend the existing summary, or create one. -/
def summaryPrompt (summary : String) : String :=
  if summary ≠ "" then
    "This is summary of the conversation to date: " ++ summary ++ "\n\n" ++
      "Extend the summary by taking into account the new messages above:"
  else
    "Create a summary of the conversation above:"

/-- `summarize_conversation`, with the LLM call passed in as `oracle`: compute
the new summary, schedule removal of all but the last two messages (the
`RemoveMessage` list, applied here as the `add_messages` reducer does), and
save the summary and log the truncation only when `conversation_id` is truthy
(`if conversation_id:` in Python — skipped both for `None` and for the empty
string). -/
def summarize_conversation (oracle : List BMsg → String) (cfg_thread_id : String)
    (s : BState) : SummarizeResult :=
  let summary := s.summary.getD ""
  let response := oracle (s.messages ++ [humanMsg (summaryPrompt summary)])
  let thread_id :=
    match s.thread_id with
    | some t => if t ≠ "" then t else cfg_thread_id
    | none => cfg_thread_id
  let n := s.messages.length
  let removed := s.messages.take (n - 2)
  { state := { s with summary := some response, messages := s.messages.drop (n - 2) },
    saved :=
      match s.conversation_id with
      | some cid =>
        if cid ≠ "" then
          some { thread_id := thread_id, summary_text := response, message_count := n }
        else none
      | none => none,
    truncation_log :=
      match s.conversation_id with
      | some cid =>
        if cid ≠ "" then
          some { messages_before := n, messages_after := 2,
                 messages_removed := removed.length }
        else none
      | none => none }

/-- `should_continue`: summarize exactly when more than 6 messages. -/
def should_continue (s : BState) : String :=
  if 6 < s.messages.length then "summarize_conversation" else "__end__"

/-- The summarization step of the graph: `should_continue` gates
`summarize_conversation`, otherwise the state passes through to `__end__`. -/
def summarizeStep (oracle : List BMsg → String) (cfg_thread_id : String) (s : BState) :
    BState :=
  if should_continue s = "summarize_conversation" then
    (summarize_conversation oracle cfg_thread_id s).state
  else s

/-! ## Memory store writes (`nodes.py` and `agent.py` handlers)

A namespace of the `BaseStore` is an association list of (key, value) records;
`put` is insert-or-update by key, exactly the store contract the source uses. -/

/-- One namespace of the memory store. -/
abbrev MemoryNamespace := List (String × String)

/-- The keys live in a namespace. -/
def nsKeys (ns : MemoryNamespace) : List String := ns.map (·.1)

/-- `store.put(namespace, key, value)`: overwrite in place when the key exists,
append otherwise. -/
def storePut (ns : MemoryNamespace) (k v : String) : MemoryNamespace :=
  if (nsKeys ns).contains k then
    ns.map (fun p => if p.1 = k then (k, v) else p)
  else ns ++ [(k, v)]

/-- The save loop of `_handle_profile_memory`: each Trustcall response is put
under its `json_doc_id` when present, else under a fresh `uuid4` key
(`fresh i` is the uuid drawn for the i-th response). -/
def handle_profile_memory_puts (fresh : Nat → String) :
    MemoryNamespace → Nat → List (Option String × String) → MemoryNamespace
  | ns, _, [] => ns
  | ns, i, r :: rs =>
    handle_profile_memory_puts fresh (storePut ns (r.1.getD (fresh i)) r.2) (i + 1) rs

/-- The save loop of `update_episodic_memory`: every response is put under a
fresh `uuid4` key — each interaction gets a unique id. -/
def update_episodic_memory_puts (fresh : Nat → String) :
    MemoryNamespace → Nat → List String → MemoryNamespace
  | ns, _, [] => ns
  | ns, i, v :: vs =>
    update_episodic_memory_puts fresh (storePut ns (fresh i) v) (i + 1) vs

/-- The single put of `update_procedural_memory`: always the fixed key
`"behavior_instructions"`. -/
def update_procedural_memory_put (ns : MemoryNamespace) (v : String) : MemoryNamespace :=
  storePut ns "behavior_instructions" v

/-! ## Dialog-stack reducer (`my_agent/memory_agent/state.py`) -/

/-- `update_dialog_stack(left, right)`: `None` keeps the stack, `"pop"` drops
the last element (`left[:-1]`), any other name is pushed. -/
def update_dialog_stack (left : List String) (right : Option String) : List String :=
  match right with
  | none => left
  | some r => if r = "pop" then left.dropLast else left ++ [r]

/-! ## Derived report of `memory_bee_node` (used to state its shape) -/

/-- The text `memory_bee_node` ends up writing into `memory_results`. -/
def memoryBeeReport (h : MemoryHandlers) (cfg_user_id : Option String) (s : BState) :
    String :=
  match cfg_user_id with
  | none => "❌ No user ID provided for memory storage"
  | some u =>
    match dispatchMemoryHandler h u (memoryTaskOf s.messages).1 (memoryTaskOf s.messages).2 with
    | .ok r => r
    | .error e => "❌ Memory update failed: " ++ e

/-! ## Concrete inputs used by the run of claim C1 and by witnesses -/

/-- A concrete retrieved product document. -/
def milkDoc : Doc := { page_content := "Organic milk 1L for 1.99", title := "milk" }

/-- Oracles where retrieval always finds `milkDoc`, every document is graded
relevant, and the groundedness grader always answers `no`. -/
def alwaysNoGroundOracles : RagOracles where
  retrieverFn := fun _ => [milkDoc]
  ragChain := fun _ _ => "Here is a grounded answer."
  docGrader := fun _ _ => .yes
  groundGrader := fun _ _ => .no
  usefulGrader := fun _ _ => .yes
  transformChain := fun q => q

/-- Oracles whose groundedness grader answers `yes` and usefulness grader `no`. -/
def groundYesUsefulNoOracles : RagOracles :=
  { alwaysNoGroundOracles with
    groundGrader := fun _ _ => .yes
    usefulGrader := fun _ _ => .no }

/-- The initial Self-RAG state for the question "milk". -/
def ragInit : AgentState :=
  { messages := ["I am looking for milk"], documents := [], question := "milk",
    generation := "", generation_v_question_grade := "",
    generation_v_documents_grade := "" }

/-- State after the first `retrieve` step of the all-`no` run. -/
def ragS1 : AgentState := retrieve_node alwaysNoGroundOracles ragInit

/-- State after `grade_documents`. -/
def ragS2 : AgentState := grade_documents_node alwaysNoGroundOracles ragS1

/-- State after the first `generate`. -/
def ragS3 : AgentState := generate_node alwaysNoGroundOracles ragS2

/-- State after the groundedness grade (`no`) is recorded. -/
def ragS4 : AgentState := generate_generation_v_documents_grade_node alwaysNoGroundOracles ragS3

/-- Every configuration the all-`no` run ever visits. -/
def ragCfgs : List (RagNode × AgentState) :=
  [(.start, ragInit), (.retrieve, ragInit), (.grade_documents, ragS1),
   (.generate, ragS2), (.gradeGenVDocuments, ragS3),
   (.generate, ragS4), (.gradeGenVDocuments, ragS4)]

/-- An `ai` message of the supervisor carrying a pending delegation tool call. -/
def pendingToolMsg : BMsg :=
  { mtype := "ai", content := "",
    tool_calls := [{ name := "assign_to_scout_bee", id := "call1",
                     task_description := some "Find milk" }] }

/-- A supervisor state that has reached the iteration ceiling while a
delegation tool call is still pending. -/
def c3State : BState :=
  { messages := [humanMsg "hi", pendingToolMsg], iteration_count := 10 }

/-- The scribe sub-agent's reply used in the claim C5 counterexample. -/
def scribeReplyMsg : BMsg := { mtype := "ai", content := "fresh summary" }

/-- A state with an existing summary, fed to `scribe_bee_node`. -/
def c5State : BState := { messages := [humanMsg "hello"], summary := some "old summary" }

/-- Memory handlers that always raise. -/
def failingHandlers : MemoryHandlers :=
  { profile := fun _ _ => .error "boom"
    shopping := fun _ _ => .error "boom"
    instructions := fun _ _ => .error "boom" }

/-- A plain one-message state for the memory-bee witness. -/
def c9State : BState := { messages := [humanMsg "remember this"] }

/-- Seven messages: above the summarization threshold of 6. -/
def c7Messages : List BMsg :=
  [humanMsg "m1", humanMsg "m2", humanMsg "m3", humanMsg "m4",
   humanMsg "m5", humanMsg "m6", humanMsg "m7"]

/-- A long conversation with no `conversation_id`. -/
def c7State : BState := { messages := c7Messages }

/-- The same long conversation carrying a `conversation_id`. -/
def c7LoggedState : BState := { messages := c7Messages, conversation_id := some "conv1" }

/-- A fixed summarization oracle. -/
def c7Oracle : List BMsg → String := fun _ => "the summary"

/-! # Theorems -/

/-- Helper: `memory_bee_node` always returns the input state with only
`memory_results` and `current_bee` replaced. -/
theorem memory_bee_node_eq (h : MemoryHandlers) (uid : Option String) (s : BState) :
    memory_bee_node h uid s =
      { s with memory_results := memoryBeeReport h uid s, current_bee := "memory_bee" } := by
  cases uid with
  | none => rfl
  | some u =>
    simp only [memory_bee_node, memoryBeeReport]
    rcases hd : dispatchMemoryHandler h u (memoryTaskOf s.messages).1
        (memoryTaskOf s.messages).2 with e | r <;> simp [hd]

/-- Claim C10: `update_dialog_stack` is total; `None` is a no-op, `"pop"` drops
the last element (the empty stack maps to the empty stack), and any other name
is appended. -/
theorem update_dialog_stack_spec (l : List String) (n : String) :
    update_dialog_stack l none = l ∧
    update_dialog_stack l (some "pop") = l.dropLast ∧
    update_dialog_stack [] (some "pop") = ([] : List String) ∧
    (n ≠ "pop" → update_dialog_stack l (some n) = l ++ [n]) := by
  refine ⟨rfl, by simp [update_dialog_stack], by simp [update_dialog_stack], ?_⟩
  intro hn
  simp [update_dialog_stack, hn]

/-- Witness for claim C10 at a concrete stack and name. -/
theorem update_dialog_stack_spec_witness :
    update_dialog_stack ["beeb_assistant"] (some "product_search") =
      ["beeb_assistant", "product_search"] :=
  (update_dialog_stack_spec ["beeb_assistant"] "product_search").2.2.2 (by decide)

/-- Claim C3: once `iteration_count` has reached 10, `route_beeb_decisions`
returns `"end"` whatever else the state holds, and `beeb_supervisor_node`
increments `iteration_count` by exactly 1 on every invocation. -/
theorem beeb_ceiling_and_iteration_increment (s : BState) (result : BMsg) :
    (10 ≤ s.iteration_count → route_beeb_decisions s = "end") ∧
    (beeb_supervisor_node result s).iteration_count = s.iteration_count + 1 := by
  constructor
  · intro h
    unfold route_beeb_decisions
    by_cases h1 : s.messages = []
    · rw [if_pos h1]
    · rw [if_neg h1, if_pos h]
  · unfold beeb_supervisor_node
    by_cases h2 : result.tool_calls = [] <;> simp [h2]

/-- Witness for claim C3: a state at the ceiling with a pending delegation. -/
theorem beeb_ceiling_and_iteration_increment_witness :
    route_beeb_decisions c3State = "end" ∧
    (beeb_supervisor_node pendingToolMsg c3State).iteration_count = 11 :=
  ⟨(beeb_ceiling_and_iteration_increment c3State pendingToolMsg).1 (by decide),
   (beeb_ceiling_and_iteration_increment c3State pendingToolMsg).2⟩

/-- Claim C9: `memory_bee_node` never changes `messages`; a missing user id and
a handler exception both degrade to a textual report in `memory_results` — no
exception escapes the node. -/
theorem memory_bee_swallows_failures (h : MemoryHandlers) (uid : Option String)
    (s : BState) :
    (memory_bee_node h uid s).messages = s.messages ∧
    (uid = none → (memory_bee_node h uid s).memory_results =
      "❌ No user ID provided for memory storage") ∧
    ∀ u e, uid = some u →
      dispatchMemoryHandler h u (memoryTaskOf s.messages).1 (memoryTaskOf s.messages).2 =
        Except.error e →
      (memory_bee_node h uid s).memory_results = "❌ Memory update failed: " ++ e := by
  refine ⟨?_, ?_, ?_⟩
  · rw [memory_bee_node_eq]
  · intro hu; subst hu; rfl
  · intro u e hu hd
    subst hu
    rw [memory_bee_node_eq]
    simp [memoryBeeReport, hd]

/-- Witness for claim C9: handlers that raise are swallowed into text. -/
theorem memory_bee_swallows_failures_witness :
    (memory_bee_node failingHandlers (some "u1") c9State).messages = c9State.messages ∧
    (memory_bee_node failingHandlers (some "u1") c9State).memory_results =
      "❌ Memory update failed: boom" :=
  ⟨(memory_bee_swallows_failures failingHandlers (some "u1") c9State).1,
   (memory_bee_swallows_failures failingHandlers (some "u1") c9State).2.2 "u1" "boom"
     rfl rfl⟩

/-- Claim C5 (amended): all three worker nodes leave `messages` unchanged and
write their output only into their own results field — except that
`scribe_bee_node` also stores its result into `summary`, and every worker
updates the `current_bee` marker. -/
theorem worker_nodes_message_frame (so : ScoutOracles) (h : MemoryHandlers)
    (uid : Option String) (sm : List BMsg) (s : BState) :
    (scout_bee_node so s).messages = s.messages ∧
    (memory_bee_node h uid s).messages = s.messages ∧
    (scribe_bee_node sm s).messages = s.messages ∧
    (scout_bee_node so s).memory_results = s.memory_results ∧
    (scout_bee_node so s).scribe_results = s.scribe_results ∧
    (scout_bee_node so s).summary = s.summary ∧
    (scout_bee_node so s).current_bee = "scout_bee" ∧
    (memory_bee_node h uid s).scout_results = s.scout_results ∧
    (memory_bee_node h uid s).scribe_results = s.scribe_results ∧
    (memory_bee_node h uid s).summary = s.summary ∧
    (memory_bee_node h uid s).current_bee = "memory_bee" ∧
    (scribe_bee_node sm s).scout_results = s.scout_results ∧
    (scribe_bee_node sm s).memory_results = s.memory_results ∧
    (scribe_bee_node sm s).current_bee = "scribe_bee" := by
  rw [memory_bee_node_eq]
  exact ⟨rfl, rfl, rfl, rfl, rfl, rfl, rfl, rfl, rfl, rfl, rfl, rfl, rfl, rfl⟩

/-- Counterexample to claim C5 as stated: `scribe_bee_node` writes its output
into the `summary` field as well, not only into `scribe_results`. -/
theorem scribe_also_writes_summary_counterexample :
    (scribe_bee_node [scribeReplyMsg] c5State).summary ≠ c5State.summary ∧
    (scribe_bee_node [scribeReplyMsg] c5State).messages = c5State.messages :=
  ⟨by decide, rfl⟩

/-- Claim C8: gated by `should_continue`, summarization is idempotent — after
one summarization the message count is at most 2, so with no new messages the
second pass changes nothing (same summary, no further truncation). -/
theorem summarization_idempotent (oracle : List BMsg → String) (cfg : String)
    (s : BState) :
    summarizeStep oracle cfg (summarizeStep oracle cfg s) = summarizeStep oracle cfg s := by
  by_cases h : 6 < s.messages.length
  · have h1 : summarizeStep oracle cfg s = (summarize_conversation oracle cfg s).state := by
      simp [summarizeStep, should_continue, h]
    have hlen : (summarize_conversation oracle cfg s).state.messages.length = 2 := by
      simp [summarize_conversation]
      omega
    rw [h1]
    simp [summarizeStep, should_continue, hlen]
  · simp [summarizeStep, should_continue, h]

/-- Helper: the grading loop issues exactly one judgment per document, in order. -/
theorem gradeDocumentsLoop_fst (o : RagOracles) (q : String) :
    ∀ ds : List Doc, (gradeDocumentsLoop o q ds).1 =
      ds.map (fun d => (d, o.docGrader d.page_content q)) := by
  intro ds
  induction ds with
  | nil => rfl
  | cons d ds ih => simp [gradeDocumentsLoop, ih]

/-- Helper: the grading loop keeps exactly the documents graded `yes`. -/
theorem gradeDocumentsLoop_snd (o : RagOracles) (q : String) :
    ∀ ds : List Doc, (gradeDocumentsLoop o q ds).2 =
      ds.filter (fun d => o.docGrader d.page_content q == BinaryScore.yes) := by
  intro ds
  induction ds with
  | nil => rfl
  | cons d ds ih =>
    simp only [gradeDocumentsLoop, List.filter_cons]
    by_cases hg : o.docGrader d.page_content q = BinaryScore.yes
    · simp [hg, ih]
    · simp [hg, ih]

/-- Claim C4: `grade_documents_node` issues one binary judgment per document and
keeps exactly the order-preserving subsequence graded `yes`; `decide_to_generate`
routes to `transform_query` iff the filtered list is empty, to `generate`
otherwise. -/
theorem grade_documents_per_item_filter_route (o : RagOracles) (s : AgentState) :
    (gradeDocumentsLoop o s.question s.documents).1.length = s.documents.length ∧
    (gradeDocumentsLoop o s.question s.documents).1 =
      s.documents.map (fun d => (d, o.docGrader d.page_content s.question)) ∧
    (grade_documents_node o s).documents =
      s.documents.filter (fun d => o.docGrader d.page_content s.question == BinaryScore.yes) ∧
    List.Sublist (grade_documents_node o s).documents s.documents ∧
    (decide_to_generate (grade_documents_node o s) = "transform_query" ↔
      (grade_documents_node o s).documents = []) ∧
    (decide_to_generate (grade_documents_node o s) = "generate" ↔
      (grade_documents_node o s).documents ≠ []) := by
  have hfst := gradeDocumentsLoop_fst o s.question s.documents
  have hdoc : (grade_documents_node o s).documents =
      s.documents.filter (fun d => o.docGrader d.page_content s.question == BinaryScore.yes) := by
    simp [grade_documents_node, gradeDocumentsLoop_snd]
  refine ⟨by rw [hfst]; simp, hfst, hdoc, ?_, ?_, ?_⟩
  · rw [hdoc]; exact List.filter_sublist _
  · by_cases he : (grade_documents_node o s).documents = []
    · simp [decide_to_generate, he]
    · simp [decide_to_generate, he]
  · by_cases he : (grade_documents_node o s).documents = []
    · simp [decide_to_generate, he]
    · simp [decide_to_generate, he]

/-- Claim C7 (amended): summarization triggers exactly on more than 6 messages;
it keeps only the 2 most recent messages, stores the new summary in the state,
and — when the state carries a truthy (non-empty) `conversation_id` — logs the
truncation with the before/after counts; with `conversation_id` absent or
empty, nothing is logged. -/
theorem summarization_trigger_truncate_log (oracle : List BMsg → String) (cfg : String)
    (s : BState) :
    (should_continue s = "summarize_conversation" ↔ 6 < s.messages.length) ∧
    (summarize_conversation oracle cfg s).state.messages =
      s.messages.drop (s.messages.length - 2) ∧
    (summarize_conversation oracle cfg s).state.summary =
      some (oracle (s.messages ++ [humanMsg (summaryPrompt (s.summary.getD ""))])) ∧
    (∀ cid, s.conversation_id = some cid → cid ≠ "" →
      (summarize_conversation oracle cfg s).truncation_log =
        some { messages_before := s.messages.length, messages_after := 2,
               messages_removed := s.messages.length - 2 }) ∧
    (s.conversation_id = none →
      (summarize_conversation oracle cfg s).truncation_log = none) ∧
    (s.conversation_id = some "" →
      (summarize_conversation oracle cfg s).truncation_log = none) := by
  refine ⟨?_, rfl, rfl, ?_, ?_, ?_⟩
  · by_cases h : 6 < s.messages.length
    · simp [should_continue, h]
    · simp [should_continue, h]
  · intro cid hc hne
    simp [summarize_conversation, hc, hne, List.length_take]
  · intro hc
    simp [summarize_conversation, hc]
  · intro hc
    simp [summarize_conversation, hc]

/-- Counterexample to claim C7 as stated: with no `conversation_id` the
summarizer runs and truncates but emits no truncation log. -/
theorem truncation_unlogged_counterexample :
    should_continue c7State = "summarize_conversation" ∧
    (summarize_conversation c7Oracle "t1" c7State).state.messages.length = 2 ∧
    (summarize_conversation c7Oracle "t1" c7State).truncation_log = none :=
  ⟨rfl, rfl, rfl⟩

/-- Witness for claim C7 at a concrete logged conversation. -/
theorem summarization_trigger_truncate_log_witness :
    (summarize_conversation c7Oracle "t1" c7LoggedState).truncation_log =
      some { messages_before := 7, messages_after := 2, messages_removed := 5 } ∧
    (should_continue c7LoggedState = "summarize_conversation" ↔
      6 < c7LoggedState.messages.length) :=
  ⟨(summarization_trigger_truncate_log c7Oracle "t1" c7LoggedState).2.2.2.1 "conv1" rfl
     (by decide),
   (summarization_trigger_truncate_log c7Oracle "t1" c7LoggedState).1⟩

/-- Helper: `store.put` under a different key never touches an existing record. -/
theorem storePut_mem_of_ne (ns : MemoryNamespace) (k v : String) (p : String × String)
    (hp : p ∈ ns) (hne : p.1 ≠ k) : p ∈ storePut ns k v := by
  unfold storePut
  split
  · exact List.mem_map.mpr ⟨p, hp, by simp [hne]⟩
  · exact List.mem_append_left _ hp

/-- Helper: the episodic save loop preserves every record whose key is not one
of the fresh uuids. -/
theorem update_episodic_memory_puts_preserves (fresh : Nat → String) :
    ∀ (vs : List String) (i : Nat) (ns : MemoryNamespace) (p : String × String),
      p ∈ ns → (∀ j, p.1 ≠ fresh j) → p ∈ update_episodic_memory_puts fresh ns i vs := by
  intro vs
  induction vs with
  | nil =>
    intro i ns p hp _
    exact hp
  | cons v vs ih =>
    intro i ns p hp hf
    exact ih (i + 1) _ p (storePut_mem_of_ne _ _ _ _ hp (hf i)) hf

/-- Claim C6 (amended): episodic updates are append-only (fresh-keyed puts never
overwrite existing interaction records); procedural updates always write the
single fixed key `behavior_instructions`, keeping at most one live record; but
a profile update puts each extractor response under its `json_doc_id` when
present and under a fresh uuid otherwise — so a response without a document id
inserts an additional Profile record. -/
theorem memory_record_key_discipline (fresh : Nat → String) (ns : MemoryNamespace)
    (vs : List String) (v w k : String) (p : String × String) :
    ((∀ j, fresh j ∉ nsKeys ns) → p ∈ ns →
      p ∈ update_episodic_memory_puts fresh ns 0 vs) ∧
    ((∀ q ∈ ns, q.1 = "behavior_instructions") → ns.length ≤ 1 →
      (∀ q ∈ update_procedural_memory_put ns v, q.1 = "behavior_instructions") ∧
      (update_procedural_memory_put ns v).length ≤ 1 ∧
      ("behavior_instructions", v) ∈ update_procedural_memory_put ns v) ∧
    handle_profile_memory_puts fresh ns 0 [(some k, w)] = storePut ns k w ∧
    handle_profile_memory_puts fresh ns 0 [(none, w)] = storePut ns (fresh 0) w := by
  refine ⟨?_, ?_, rfl, rfl⟩
  · intro hfr hp
    refine update_episodic_memory_puts_preserves fresh vs 0 ns p hp ?_
    intro j hje
    exact hfr j (hje ▸ List.mem_map_of_mem _ hp)
  · intro honly hlen
    rcases ns with _ | ⟨q, rest⟩
    · refine ⟨?_, ?_, ?_⟩ <;> simp [update_procedural_memory_put, storePut, nsKeys]
    · rcases rest with _ | ⟨a, l⟩
      · have hq : q.1 = "behavior_instructions" := honly q (by simp)
        have hput : storePut [q] "behavior_instructions" v =
            [("behavior_instructions", v)] := by
          simp [storePut, nsKeys, hq]
        refine ⟨?_, ?_, ?_⟩ <;> simp [update_procedural_memory_put, hput]
      · simp at hlen

/-- Counterexample to claim C6 as stated: two profile updates whose extractions
return no `json_doc_id` leave two live Profile records in the namespace. -/
theorem profile_records_multiply_counterexample :
    handle_profile_memory_puts (fun _ => "uuid-b")
        (handle_profile_memory_puts (fun _ => "uuid-a") [] 0 [(none, "profile v1")])
        0 [(none, "profile v2")] =
      [("uuid-a", "profile v1"), ("uuid-b", "profile v2")] ∧
    (handle_profile_memory_puts (fun _ => "uuid-b")
        (handle_profile_memory_puts (fun _ => "uuid-a") [] 0 [(none, "profile v1")])
        0 [(none, "profile v2")]).length = 2 :=
  ⟨rfl, rfl⟩

/-- Witness for claim C6 at concrete stores. -/
theorem memory_record_key_discipline_witness :
    ("log-key-0", "old interaction") ∈
      update_episodic_memory_puts (fun _ => "uuid-c") [("log-key-0", "old interaction")] 0
        ["new interaction"] ∧
    ("behavior_instructions", "be brief") ∈
      update_procedural_memory_put [("behavior_instructions", "old")] "be brief" :=
  ⟨(memory_record_key_discipline (fun _ => "uuid-c") [("log-key-0", "old interaction")]
      ["new interaction"] "v" "w" "k" ("log-key-0", "old interaction")).1
      (by intro j; decide) (by decide),
   ((memory_record_key_discipline (fun _ => "uuid-c") [("behavior_instructions", "old")]
      ["x"] "be brief" "w" "k" ("a", "b")).2.1 (by decide) (by decide)).2.2⟩

/-- Helper: the set of configurations of the all-`no` run is closed under one
graph transition. -/
theorem ragCfgs_closed :
    ∀ x ∈ ragCfgs, ragStep alwaysNoGroundOracles x ∈ ragCfgs := by decide

/-- Helper: none of those configurations is the END node. -/
theorem ragCfgs_not_end : ∀ x ∈ ragCfgs, x.1 ≠ RagNode.ragEnd := by decide

/-- Helper: the all-`no` run stays inside `ragCfgs` forever. -/
theorem ragRun_mem_cfgs : ∀ n, ragRun alwaysNoGroundOracles ragInit n ∈ ragCfgs := by
  intro n
  induction n with
  | zero => decide
  | succ n ih => exact ragCfgs_closed _ ih

/-- Claim C1 (code bug): the Self-RAG graph has no iteration counter and no
ceiling — starting from the question "milk", with every groundedness grade
`no`, the run never reaches the END node, at any number of steps. -/
theorem selfRag_all_no_grades_never_terminates (n : Nat) :
    (ragRun alwaysNoGroundOracles ragInit n).1 ≠ RagNode.ragEnd :=
  ragCfgs_not_end _ (ragRun_mem_cfgs n)

/-- Claim C2: a `no` groundedness grade routes to `generate` with the evidence
set unchanged across the regeneration; a `yes` groundedness grade routes to the
usefulness grading, whose `no` routes to `transform_query` and whose `yes`
terminates at END emitting the current generation. -/
theorem selfRag_grade_routing (o : RagOracles) (s t : AgentState) :
    (o.groundGrader s.documents s.generation = BinaryScore.no →
      (ragStep o (RagNode.gradeGenVDocuments, s)).1 = RagNode.generate ∧
      (ragStep o (RagNode.gradeGenVDocuments, s)).2.documents = s.documents ∧
      (ragStep o (ragStep o (RagNode.gradeGenVDocuments, s))).2.documents = s.documents) ∧
    ((ragStep o (RagNode.generate, t)).2.documents = t.documents) ∧
    (o.groundGrader s.documents s.generation = BinaryScore.yes →
      (ragStep o (RagNode.gradeGenVDocuments, s)).1 = RagNode.gradeGenVQuestion) ∧
    (o.usefulGrader s.question s.generation = BinaryScore.no →
      (ragStep o (RagNode.gradeGenVQuestion, s)).1 = RagNode.transform_query) ∧
    (o.usefulGrader s.question s.generation = BinaryScore.yes →
      (ragStep o (RagNode.gradeGenVQuestion, s)).1 = RagNode.ragEnd ∧
      (ragStep o (RagNode.gradeGenVQuestion, s)).2.generation = s.generation) := by
  refine ⟨?_, rfl, ?_, ?_, ?_⟩
  · intro h
    have hstep : ragStep o (RagNode.gradeGenVDocuments, s) =
        (RagNode.generate, generate_generation_v_documents_grade_node o s) := by
      simp [ragStep, grade_generation_v_documents,
        generate_generation_v_documents_grade_node, h, BinaryScore.toStr]
    rw [hstep]
    exact ⟨rfl, rfl, rfl⟩
  · intro h
    simp [ragStep, grade_generation_v_documents,
      generate_generation_v_documents_grade_node, h, BinaryScore.toStr]
  · intro h
    simp [ragStep, grade_generation_v_question,
      generate_generation_v_question_grade_node, h, BinaryScore.toStr]
  · intro h
    have hstep : ragStep o (RagNode.gradeGenVQuestion, s) =
        (RagNode.ragEnd, generate_generation_v_question_grade_node o s) := by
      simp [ragStep, grade_generation_v_question,
        generate_generation_v_question_grade_node, h, BinaryScore.toStr]
    rw [hstep]
    exact ⟨rfl, rfl⟩

/-- Witness for claim C2 at concrete oracles and the concrete state `ragS3`. -/
theorem selfRag_grade_routing_witness :
    (ragStep alwaysNoGroundOracles (RagNode.gradeGenVDocuments, ragS3)).1 =
      RagNode.generate ∧
    (ragStep groundYesUsefulNoOracles (RagNode.gradeGenVDocuments, ragS3)).1 =
      RagNode.gradeGenVQuestion ∧
    (ragStep groundYesUsefulNoOracles (RagNode.gradeGenVQuestion, ragS3)).1 =
      RagNode.transform_query ∧
    (ragStep alwaysNoGroundOracles (RagNode.gradeGenVQuestion, ragS3)).1 =
      RagNode.ragEnd :=
  ⟨((selfRag_grade_routing alwaysNoGroundOracles ragS3 ragS3).1 rfl).1,
   (selfRag_grade_routing groundYesUsefulNoOracles ragS3 ragS3).2.2.1 rfl,
   (selfRag_grade_routing groundYesUsefulNoOracles ragS3 ragS3).2.2.2.1 rfl,
   ((selfRag_grade_routing alwaysNoGroundOracles ragS3 ragS3).2.2.2.2 rfl).1⟩

end BargainB
